import Mathlib

/-!
Verification development for the Berghain admission-control puzzle.

The definitions below are a shallow embedding of the repository's core:
`src/berghain/strategies/scenario_1.py` (class `Scenario1Strategy`),
`src/berghain/api.py` (the data model) and `src/berghain/game_runner.py`
(the per-step statistics update of `GameRunner.step`).

Modelling conventions:
* Python floats are modelled as exact rationals (`ℚ`); every concrete
  constant appearing in the claims is exactly representable.
* Python dicts are modelled as association lists (`List (String × _)`)
  with first-match lookup; dict keys are unique, which surfaces as a
  `Nodup` hypothesis where the proofs need it.
* `random.random()` is modelled as an explicit draw argument `draw : ℚ`;
  the Python comparison `random.random() < acceptance_rate` becomes
  `draw < acceptance_rate`.
* `print` calls have no effect on the returned values and are dropped,
  except that the print-only correlation-bonus computation of
  `Scenario1Strategy.decide` is kept as a dead `let` for fidelity.
-/

namespace Berghain

/-- First-match lookup with default in an association list;
models Python's `dict.get(key, default)`. -/
def lookupD {α : Type} (l : List (String × α)) (k : String) (d : α) : α :=
  match l with
  | [] => d
  | p :: rest => if p.1 == k then p.2 else lookupD rest k d

/-- Key membership in an association list; models Python's `key in dict`. -/
def hasKey {α : Type} (l : List (String × α)) (k : String) : Bool :=
  match l with
  | [] => false
  | p :: rest => p.1 == k || hasKey rest k

/-- `api.py` dataclass `Person`: an index plus a mapping attribute → bool. -/
structure Person where
  person_index : ℕ
  attributes : List (String × Bool)
  deriving Repr, DecidableEq

/-- `api.py` dataclass `Constraint`: (attribute, min_count).  The Python
field `attribute` is a reserved word in Lean and is rendered `attr`. -/
structure Constraint where
  attr : String
  min_count : ℕ
  deriving Repr, DecidableEq

/-- The fields of `api.py` dataclass `GameState` that `decide` reads. -/
structure GameState where
  admitted_count : ℕ
  rejected_count : ℕ
  constraints : List Constraint
  deriving Repr, DecidableEq

/-- The `current_stats` dict maintained by `GameRunner` (`game_runner.py`):
keys `attribute_counts`, `admitted_people`, `rejected_people`, `steps_taken`. -/
structure CurrentStats where
  attribute_counts : List (String × ℕ)
  admitted_people : List (List (String × Bool))
  rejected_people : List (List (String × Bool))
  steps_taken : ℕ
  deriving Repr, DecidableEq

/-- The state of `Scenario1Strategy` (`scenario_1.py` lines 14-28):
the three tolerance parameters of `__init__` plus `_constraints`,
`_relative_frequencies` and `_correlations` (filled by `on_game_start`). -/
structure Scenario1Strategy where
  initial_tolerance : ℚ
  final_tolerance : ℚ
  strictness_start : ℚ
  constraints : List Constraint
  relative_frequencies : List (String × ℚ)
  correlations : List (String × List (String × ℚ))
  deriving Repr, DecidableEq

/-- `Scenario1Strategy.__init__` (`scenario_1.py` lines 14-28): stores the
three tolerance parameters verbatim — no validation — and initialises the
session-derived fields empty. -/
def Scenario1Strategy.init (initial_tolerance final_tolerance strictness_start : ℚ) :
    Scenario1Strategy :=
  ⟨initial_tolerance, final_tolerance, strictness_start, [], [], []⟩

/-- `Scenario1Strategy._calculate_current_tolerance` (`scenario_1.py` lines 30-57). -/
def Scenario1Strategy.calculate_current_tolerance (s : Scenario1Strategy)
    (admitted_count : ℕ) : ℚ :=
  let progress : ℚ := (admitted_count : ℚ) / 1000
  if 0.95 ≤ progress then 0
  else if progress ≤ s.strictness_start then s.initial_tolerance
  else
    let strictness_progress := (progress - s.strictness_start) / (1 - s.strictness_start)
    let strictness_progress := min 1 (max 0 strictness_progress)
    s.initial_tolerance - (s.initial_tolerance - s.final_tolerance) * strictness_progress

/-- `Scenario1Strategy._calculate_no_attributes_target_basic` (`scenario_1.py`
lines 114-127). -/
def Scenario1Strategy.calculate_no_attributes_target_basic (s : Scenario1Strategy) : ℚ :=
  match s.constraints with
  | [] => 0.4
  | c :: cs =>
    let max_constraint_percentage :=
      (cs.map (fun k => (k.min_count : ℚ) / 1000)).foldl max ((c.min_count : ℚ) / 1000)
    let total_constraint_percentage :=
      ((c :: cs).map (fun k => (k.min_count : ℚ) / 1000)).sum
    let estimated_constraint_coverage :=
      max max_constraint_percentage (total_constraint_percentage * 0.6)
    let no_attr_target := 1 - estimated_constraint_coverage
    max 0.1 (min 0.7 no_attr_target)

/-- `Scenario1Strategy._calculate_no_attributes_target_with_statistics`
(`scenario_1.py` lines 59-112).  The `[]` match arm is unreachable (the
emptiness guard fires first) and mirrors the Python `else` shape. -/
def Scenario1Strategy.calculate_no_attributes_target_with_statistics
    (s : Scenario1Strategy) : ℚ :=
  if s.constraints.isEmpty || s.relative_frequencies.isEmpty then
    s.calculate_no_attributes_target_basic
  else
    match s.constraints with
    | [] => s.calculate_no_attributes_target_basic
    | [c] => 1 - lookupD s.relative_frequencies c.attr 0.5
    | [c1, c2] =>
      let freq1 := lookupD s.relative_frequencies c1.attr 0.5
      let freq2 := lookupD s.relative_frequencies c2.attr 0.5
      let correlation := lookupD (lookupD s.correlations c1.attr []) c2.attr 0
      let joint_prob := freq1 * freq2 * (1 + max 0 correlation)
      let joint_prob := min joint_prob (min freq1 freq2)
      let prob_either := freq1 + freq2 - joint_prob
      let prob_neither := 1 - prob_either
      max 0.05 (min 0.8 prob_neither)
    | _ =>
      let prob_none := s.constraints.foldl
        (fun acc c => acc * (1 - lookupD s.relative_frequencies c.attr 0.5)) 1
      max 0.05 (min 0.8 prob_none)

/-- `Scenario1Strategy._calculate_expected_attribute_yield` (`scenario_1.py`
lines 233-247). -/
def Scenario1Strategy.calculate_expected_attribute_yield (s : Scenario1Strategy)
    (attr : String) (remaining_people : ℚ) : ℚ :=
  if s.relative_frequencies.isEmpty then remaining_people * 0.5
  else remaining_people * lookupD s.relative_frequencies attr 0.5

/-- `Scenario1Strategy._decide_no_attributes_person` (`scenario_1.py` lines
129-231); `draw` models the `random.random()` call of line 223. -/
def Scenario1Strategy.decide_no_attributes_person (s : Scenario1Strategy)
    (admitted_count : ℕ) (current_stats : CurrentStats) (draw : ℚ) : Bool :=
  let progress : ℚ := (admitted_count : ℚ) / 1000
  let admitted_people := current_stats.admitted_people
  let current_no_attr_count :=
    (admitted_people.filter (fun person => person.all (fun q => !q.2))).length
  let current_no_attr_percentage : ℚ :=
    if admitted_people.isEmpty then 0
    else (current_no_attr_count : ℚ) / (admitted_people.length : ℚ)
  let target_percentage := s.calculate_no_attributes_target_with_statistics
  if current_no_attr_percentage > target_percentage + 0.02 then false
  else
    let base_rate : ℚ :=
      if progress ≤ 0.05 then 0.2
      else if progress ≤ 0.15 then 0.15
      else if progress ≤ 0.3 then 0.1
      else if progress ≤ 0.5 then 0.05
      else if progress ≤ 0.7 then 0.02
      else if progress ≤ 0.9 then 0.01
      else 0.005
    let acceptance_rate :=
      if current_no_attr_percentage < target_percentage - 0.1 then
        min 0.3 (base_rate * 1.5)
      else if current_no_attr_percentage < target_percentage - 0.03 then
        min 0.2 (base_rate * 1.2)
      else if current_no_attr_percentage < target_percentage then base_rate
      else base_rate * 0.1
    let acceptance_rate :=
      if ¬ s.constraints.isEmpty ∧ ¬ admitted_people.isEmpty then
        if s.constraints.any (fun c =>
            decide (((lookupD current_stats.attribute_counts c.attr 0 : ℕ) : ℚ)
                / (admitted_people.length : ℚ)
              < (c.min_count : ℚ) / 1000 - 0.05)) then
          acceptance_rate * 0.5
        else acceptance_rate
      else acceptance_rate
    draw < acceptance_rate

/-- The print-only correlation-bonus computation of `Scenario1Strategy.decide`
(`scenario_1.py` lines 328-341); its value never influences the decision. -/
def correlation_bonus_for (person : Person)
    (corrs : List (String × List (String × ℚ))) (attr : String) : ℚ :=
  if lookupD person.attributes attr false ∧ ¬ corrs.isEmpty then
    let person_attrs := (person.attributes.filter (fun q => q.2)).map (fun q => q.1)
    if 1 < person_attrs.length then
      person_attrs.foldl (fun bonus other_attr =>
        if other_attr ≠ attr ∧ hasKey (lookupD corrs attr []) other_attr then
          (if lookupD (lookupD corrs attr []) other_attr 0 > 0.1 then
            bonus + lookupD (lookupD corrs attr []) other_attr 0
          else bonus)
        else bonus) 0
    else 0
  else 0

/-- The per-constraint loop of `Scenario1Strategy.decide` (`scenario_1.py`
lines 290-344): over-representation check, under-representation check with
statistical or fallback estimate, print-only correlation bonus, and the
final `return True` when no constraint rejected. -/
def decideLoop (person : Person) (counts : List (String × ℕ))
    (freqs : List (String × ℚ)) (corrs : List (String × List (String × ℚ)))
    (total_admitted : ℕ) (remaining_spots current_tolerance : ℚ) :
    List Constraint → Bool
  | [] => true
  | constraint :: rest =>
    let attr := constraint.attr
    let required_count := constraint.min_count
    let target_percentage : ℚ := (required_count : ℚ) / 1000
    let current_count := lookupD counts attr 0
    let current_percentage : ℚ :=
      if 0 < total_admitted then (current_count : ℚ) / (total_admitted : ℚ) else 0
    let person_has_attr := lookupD person.attributes attr false
    if person_has_attr ∧ current_percentage > target_percentage + current_tolerance then
      false
    else if ¬ person_has_attr ∧ current_percentage < target_percentage - 0.08 then
      let still_needed : ℚ := (required_count : ℚ) - (current_count : ℚ)
      if ¬ freqs.isEmpty ∧ hasKey freqs attr then
        let expected_yield :=
          if freqs.isEmpty then remaining_spots * 0.5
          else remaining_spots * lookupD freqs attr 0.5
        if expected_yield < still_needed * 1.2 then false
        else
          let _correlation_bonus := correlation_bonus_for person corrs attr
          decideLoop person counts freqs corrs total_admitted remaining_spots
            current_tolerance rest
      else
        if still_needed > remaining_spots * 0.7 then false
        else
          let _correlation_bonus := correlation_bonus_for person corrs attr
          decideLoop person counts freqs corrs total_admitted remaining_spots
            current_tolerance rest
    else
      let _correlation_bonus := correlation_bonus_for person corrs attr
      decideLoop person counts freqs corrs total_admitted remaining_spots
        current_tolerance rest

/-- `Scenario1Strategy.decide` (`scenario_1.py` lines 249-344); `draw` models
the `random.random()` draw consumed on the no-attribute path. -/
def Scenario1Strategy.decide (s : Scenario1Strategy) (person : Person)
    (game_state : GameState) (current_stats : CurrentStats) (draw : ℚ) : Bool :=
  if 1000 ≤ game_state.admitted_count then false
  else if person.attributes.all (fun q => !q.2) then
    s.decide_no_attributes_person game_state.admitted_count current_stats draw
  else if current_stats.admitted_people.isEmpty then true
  else
    let constraints :=
      if s.constraints.isEmpty then game_state.constraints else s.constraints
    if constraints.isEmpty then true
    else
      let total_admitted := current_stats.admitted_people.length
      let remaining_spots : ℚ := 1000 - (total_admitted : ℚ)
      let current_tolerance := s.calculate_current_tolerance total_admitted
      decideLoop person current_stats.attribute_counts s.relative_frequencies
        s.correlations total_admitted remaining_spots current_tolerance constraints

/-- The self-mutation performed by `Scenario1Strategy.decide` (`scenario_1.py`
lines 266-269): on the main path, if `_constraints` is still empty it is
latched from `game_state.constraints`. -/
def Scenario1Strategy.decideUpdate (s : Scenario1Strategy) (person : Person)
    (game_state : GameState) (current_stats : CurrentStats) : Scenario1Strategy :=
  if 1000 ≤ game_state.admitted_count then s
  else if person.attributes.all (fun q => !q.2) then s
  else if current_stats.admitted_people.isEmpty then s
  else if s.constraints.isEmpty ∧ ¬ game_state.constraints.isEmpty then
    { s with constraints := game_state.constraints }
  else s

/-- One per-attribute update of `current_stats['attribute_counts']`
(`game_runner.py` lines 209-211): on admission, every attribute that is
true on the person and already a key of the counts dict is incremented. -/
def countStep (counts : List (String × ℕ)) (q : String × Bool) : List (String × ℕ) :=
  if q.2 ∧ hasKey counts q.1 then
    counts.map (fun p => if p.1 == q.1 then (p.1, p.2 + 1) else p)
  else counts

/-- The `current_stats` update of one `GameRunner.step` cycle
(`game_runner.py` lines 206-213 and 231): an admitted person's attributes
are appended to `admitted_people` and bump `attribute_counts`; a rejected
person's attributes are appended to `rejected_people`; `steps_taken`
always increments. -/
def updateStats (stats : CurrentStats) (attrs : List (String × Bool))
    (decision : Bool) : CurrentStats :=
  if decision then
    { stats with
      admitted_people := stats.admitted_people ++ [attrs]
      attribute_counts := attrs.foldl countStep stats.attribute_counts
      steps_taken := stats.steps_taken + 1 }
  else
    { stats with
      rejected_people := stats.rejected_people ++ [attrs]
      steps_taken := stats.steps_taken + 1 }

/-- The `current_stats` initialisation of `GameRunner.reset` /
`GameRunner.start_game` (`game_runner.py` lines 44-49 and 70-71): empty
histories and one zero count per quota attribute. -/
def initStats (constraints : List Constraint) : CurrentStats :=
  ⟨constraints.map (fun c => (c.attr, 0)), [], [], 0⟩

/-- Folding the per-cycle statistics update over a decided candidate
sequence, starting from the freshly initialised statistics. -/
def runStats (constraints : List Constraint) (records : List (Person × Bool)) :
    CurrentStats :=
  records.foldl (fun st pr => updateStats st pr.1.attributes pr.2) (initStats constraints)

/-- The per-session state owned by the session controller: the strategy
(with its lazily latched `_constraints`), the running statistics, and the
admitted/rejected counters. -/
structure SessionState where
  strategy : Scenario1Strategy
  stats : CurrentStats
  admitted_count : ℕ
  rejected_count : ℕ
  deriving Repr, DecidableEq

/-- One decision cycle of `GameRunner.step` (`game_runner.py` lines
177-231): build the game state, ask the strategy, apply the strategy's
internal latching, update the statistics and the counters. -/
def sessionStep (gs_constraints : List Constraint) (st : SessionState)
    (person : Person) (draw : ℚ) : Bool × SessionState :=
  let gs : GameState := ⟨st.admitted_count, st.rejected_count, gs_constraints⟩
  let d := st.strategy.decide person gs st.stats draw
  ⟨d,
    ⟨st.strategy.decideUpdate person gs st.stats,
      updateStats st.stats person.attributes d,
      st.admitted_count + (if d then 1 else 0),
      st.rejected_count + (if d then 0 else 1)⟩⟩

/-- Running a whole candidate sequence with its random draws through the
session controller, collecting the decision sequence. -/
def runSession (gs_constraints : List Constraint) (st : SessionState) :
    List (Person × ℚ) → List Bool
  | [] => []
  | (p, r) :: rest =>
    let step := sessionStep gs_constraints st p r
    step.1 :: runSession gs_constraints step.2 rest

/-! ### Concrete fixtures used by counterexamples and witnesses -/

/-- A candidate whose only attribute is false. -/
def personEmpty : Person := ⟨0, [("A", false)]⟩

/-- A candidate whose only true attribute `Z` is not a quota attribute. -/
def personZ : Person := ⟨1, [("Z", true)]⟩

/-- The game state at the very start of a session. -/
def gs0 : GameState := ⟨0, 0, []⟩

/-- Fresh statistics for a session with one quota on `A`. -/
def stats0 : CurrentStats := ⟨[("A", 0)], [], [], 0⟩

/-- A default-configured strategy after `on_game_start` of a session with a
single quota `A ≥ 600` and frequency `A ↦ 0.6`. -/
def s0 : Scenario1Strategy := ⟨0.2, 0.02, 0.1, [⟨"A", 600⟩], [("A", 0.6)], []⟩

/-- A default-configured strategy after `on_game_start` of a two-quota
session with frequencies `A ↦ 0.5`, `B ↦ 0.5` and correlation 0. -/
def s7 : Scenario1Strategy :=
  ⟨0.2, 0.02, 0.1, [⟨"A", 300⟩, ⟨"B", 400⟩], [("A", 0.5), ("B", 0.5)],
    [("A", [("B", 0)]), ("B", [("A", 0)])]⟩

/-- A single-quota strategy whose quota attribute has frequency 1. -/
def sOneFull : Scenario1Strategy :=
  ⟨0.2, 0.02, 0.1, [⟨"A", 100⟩], [("A", 1)], []⟩

/-- A single-quota strategy whose quota attribute has frequency 0. -/
def sOneZero : Scenario1Strategy :=
  ⟨0.2, 0.02, 0.1, [⟨"A", 100⟩], [("A", 0)], []⟩

/-- A strategy configured with `final_tolerance > initial_tolerance`. -/
def s3 : Scenario1Strategy := ⟨0.1, 0.5, 0.1, [], [], []⟩

/-- A strategy for a session with one quota `A ≥ 500` whose statistics
carry no frequency for `A`. -/
def s4 : Scenario1Strategy := ⟨0.2, 0.02, 0.1, [⟨"A", 500⟩], [], []⟩

/-- A candidate lacking the quota attribute but carrying a true non-quota
attribute. -/
def person4 : Person := ⟨2, [("B", true)]⟩

/-- Game state after 20 admissions. -/
def gs4 : GameState := ⟨20, 100, []⟩

/-- Statistics after 20 admissions, none carrying the quota attribute. -/
def stats4 : CurrentStats :=
  ⟨[("A", 0)], List.replicate 20 [("B", true)], [], 20⟩

/-! ### C1: first all-false candidate and the bootstrap rule -/

/-- C1 (counterexample): the very first candidate of a session whose
attributes are all false is NOT always admitted: with random draw 9/10 the
no-attribute sub-policy rejects it, while with draw 1/10 it admits it, so
the decision depends on the random draw and the bootstrap rule never fires
for it. -/
theorem first_empty_candidate_draw_dependent :
    s0.decide personEmpty gs0 stats0 (9/10) = false
      ∧ s0.decide personEmpty gs0 stats0 (1/10) = true :=
  ⟨by with_unfolding_all rfl, by with_unfolding_all rfl⟩

/-- C1 (amended): for a candidate all of whose attributes are false,
`decide` hands the decision to the randomised no-attribute sub-policy
(the empty-candidate path precedes the bootstrap rule); the bootstrap rule
only ever applies to candidates carrying at least one true attribute. -/
theorem first_empty_candidate_uses_random_subpolicy (s : Scenario1Strategy)
    (person : Person) (gs : GameState) (stats : CurrentStats) (draw : ℚ)
    (hcap : gs.admitted_count < 1000)
    (hempty : person.attributes.all (fun q => !q.2) = true) :
    s.decide person gs stats draw
      = s.decide_no_attributes_person gs.admitted_count stats draw := by
  unfold Scenario1Strategy.decide
  rw [if_neg (by omega), if_pos hempty]

/-- Witness for `first_empty_candidate_uses_random_subpolicy` at the
session-start fixture with draw 9/10. -/
theorem first_empty_candidate_uses_random_subpolicy_witness :
    gs0.admitted_count < 1000
      ∧ s0.decide personEmpty gs0 stats0 (9/10)
          = s0.decide_no_attributes_person gs0.admitted_count stats0 (9/10) :=
  ⟨by decide, first_empty_candidate_uses_random_subpolicy s0 personEmpty gs0
    stats0 (9/10) (by decide) (by with_unfolding_all rfl)⟩

/-! ### C2: which candidates reach the no-attribute sub-policy -/

/-- A helper: a list with some true value is not all-false. -/
theorem all_not_eq_false_of_any {l : List (String × Bool)}
    (h : l.any (fun q => q.2) = true) : l.all (fun q => !q.2) = false := by
  cases hall : l.all (fun q => !q.2) with
  | false => rfl
  | true =>
    rw [List.all_eq_true] at hall
    rw [List.any_eq_true] at h
    obtain ⟨x, hx, hx2⟩ := h
    have hx2q : x.2 = true := hx2
    have h2 : (!x.2) = true := hall x hx
    rw [hx2q] at h2
    simp at h2

/-- C2 (counterexample): a candidate whose only true attribute `Z` is not a
quota attribute does NOT get the no-attribute sub-policy result: at session
start with draw 9/10, `decide` admits it (bootstrap), while the sub-policy
would reject. -/
theorem empty_path_requires_all_attributes_false :
    s0.decide personZ gs0 stats0 (9/10) = true
      ∧ s0.decide_no_attributes_person gs0.admitted_count stats0 (9/10) = false :=
  ⟨by with_unfolding_all rfl, by with_unfolding_all rfl⟩

/-- C2 (amended): `decide` delegates to the no-attribute sub-policy exactly
when every attribute carried by the candidate — quota or not — is false; a
candidate with any true attribute takes the main path (witnessed here by
the bootstrap admitting it independent of the draw). -/
theorem true_attribute_takes_main_path (s : Scenario1Strategy) (person : Person)
    (gs : GameState) (stats : CurrentStats) (draw : ℚ)
    (hcap : gs.admitted_count < 1000)
    (hsome : person.attributes.any (fun q => q.2) = true)
    (hboot : stats.admitted_people = []) :
    s.decide person gs stats draw = true := by
  unfold Scenario1Strategy.decide
  rw [if_neg (by omega), if_neg (by simp [all_not_eq_false_of_any hsome]),
    if_pos (by simp [hboot])]

/-- Witness for `true_attribute_takes_main_path` on the non-quota-attribute
candidate with draw 3/4. -/
theorem true_attribute_takes_main_path_witness :
    s0.decide personZ gs0 stats0 (3/4) = true :=
  true_attribute_takes_main_path s0 personZ gs0 stats0 (3/4) (by decide)
    (by with_unfolding_all rfl) rfl

/-! ### C5: no validation of tolerance parameters -/

/-- C5 (counterexample): constructing the strategy with
`initial_tolerance = 3/2 ∉ [0,1]` raises no error: the value is stored
verbatim and the session happily processes a candidate. -/
theorem out_of_range_tolerance_accepted :
    (Scenario1Strategy.init (3/2) (1/50) (1/10)).initial_tolerance = 3/2
      ∧ (Scenario1Strategy.init (3/2) (1/50) (1/10)).decide personZ gs0 stats0 0
          = true :=
  ⟨by with_unfolding_all rfl, by with_unfolding_all rfl⟩

/-- C5 (amended): `Scenario1Strategy.__init__` performs no validation at
all: for arbitrary tolerance parameters (in or out of `[0,1]`) the strategy
is created with the given values stored verbatim, and decision processing
proceeds. -/
theorem init_stores_tolerances_unvalidated (i f ss : ℚ) :
    (Scenario1Strategy.init i f ss).initial_tolerance = i
      ∧ (Scenario1Strategy.init i f ss).final_tolerance = f
      ∧ (Scenario1Strategy.init i f ss).strictness_start = ss
      ∧ (Scenario1Strategy.init i f ss).decide personZ gs0 stats0 0 = true :=
  ⟨rfl, rfl, rfl, rfl⟩

/-! ### C7: two-quota independence sanity check -/

/-- C7: with two quota attributes of frequency 0.5 each and correlation 0,
the estimated probability that a candidate has neither attribute is exactly
0.25. -/
theorem two_quota_independent_neither_probability :
    s7.calculate_no_attributes_target_with_statistics = 0.25 := by
  with_unfolding_all rfl

/-! ### C8: decisions are deterministic given the random draws -/

/-- C8: replaying an identical candidate sequence with identical random
draws against an identically constructed session produces an identical
decision sequence — the session run is a pure function of its inputs. -/
theorem replay_identical_decisions (cs1 cs2 : List Constraint)
    (st1 st2 : SessionState) (inputs1 inputs2 : List (Person × ℚ))
    (hcs : cs1 = cs2) (hst : st1 = st2) (hin : inputs1 = inputs2) :
    runSession cs1 st1 inputs1 = runSession cs2 st2 inputs2 := by
  subst hcs; subst hst; subst hin; rfl

/-- Witness for `replay_identical_decisions` on a concrete two-candidate
session. -/
theorem replay_identical_decisions_witness :
    runSession [] ⟨s0, initStats [⟨"A", 600⟩], 0, 0⟩
        [(personZ, 1/2), (personEmpty, 1/100)]
      = runSession [] ⟨s0, initStats [⟨"A", 600⟩], 0, 0⟩
        [(personZ, 1/2), (personEmpty, 1/100)] :=
  replay_identical_decisions _ _ _ _ _ _ rfl rfl rfl

/-! ### C9: the correlation signal never changes a main-path decision -/

/-- The per-constraint loop never reads the correlations except in the
print-only bonus, so its result is invariant under any change of them. -/
theorem decideLoop_correlations_irrelevant (person : Person)
    (counts : List (String × ℕ)) (freqs : List (String × ℚ))
    (corrs1 corrs2 : List (String × List (String × ℚ)))
    (total_admitted : ℕ) (remaining_spots current_tolerance : ℚ) :
    ∀ l : List Constraint,
      decideLoop person counts freqs corrs1 total_admitted remaining_spots
          current_tolerance l
        = decideLoop person counts freqs corrs2 total_admitted remaining_spots
          current_tolerance l
  | [] => rfl
  | c :: rest => by
    have ih := decideLoop_correlations_irrelevant person counts freqs corrs1
      corrs2 total_admitted remaining_spots current_tolerance rest
    simp only [decideLoop]
    split_ifs <;> simp [ih]

/-- C9: for a candidate carrying at least one true attribute, the boolean
returned by `decide` is unchanged under any change of the correlations
mapping — on the main path the correlation signal is print-only. -/
theorem correlations_are_advisory_only (s : Scenario1Strategy)
    (corrs2 : List (String × List (String × ℚ))) (person : Person)
    (gs : GameState) (stats : CurrentStats) (draw : ℚ)
    (hsome : person.attributes.any (fun q => q.2) = true) :
    Scenario1Strategy.decide { s with correlations := corrs2 } person gs stats draw
      = s.decide person gs stats draw := by
  obtain ⟨it, ft, sst, cs, fr, co⟩ := s
  simp only [Scenario1Strategy.decide, all_not_eq_false_of_any hsome,
    Bool.false_eq_true, if_false]
  split_ifs <;> first
    | rfl
    | exact decideLoop_correlations_irrelevant person stats.attribute_counts fr
        co corrs2 stats.admitted_people.length
        (1000 - (stats.admitted_people.length : ℚ))
        ((⟨it, ft, sst, cs, fr, co⟩ : Scenario1Strategy).calculate_current_tolerance
          stats.admitted_people.length) _
    | exact decideLoop_correlations_irrelevant person stats.attribute_counts fr
        corrs2 co stats.admitted_people.length
        (1000 - (stats.admitted_people.length : ℚ))
        ((⟨it, ft, sst, cs, fr, co⟩ : Scenario1Strategy).calculate_current_tolerance
          stats.admitted_people.length) _

/-- Witness for `correlations_are_advisory_only`: swapping in a nonempty
correlations table does not change the decision on a concrete candidate. -/
theorem correlations_are_advisory_only_witness :
    Scenario1Strategy.decide { s0 with correlations := [("A", [("Z", 1)])] }
        personZ gs0 stats0 (1/3)
      = s0.decide personZ gs0 stats0 (1/3) :=
  correlations_are_advisory_only s0 [("A", [("Z", 1)])] personZ gs0 stats0
    (1/3) (by rfl)

/-! ### C10: clamping of the no-attribute target -/

/-- C10: with two or more quotas and nonempty frequencies the no-attribute
target is clamped into `[0.05, 0.8]`; with exactly one quota it is the
unclamped `1 - frequency`, which reaches 0 and 1 at the degenerate
frequencies 1 and 0. -/
theorem no_attr_target_clamping :
    (∀ s : Scenario1Strategy, 2 ≤ s.constraints.length →
        s.relative_frequencies ≠ [] →
        (0.05 : ℚ) ≤ s.calculate_no_attributes_target_with_statistics
          ∧ s.calculate_no_attributes_target_with_statistics ≤ 0.8)
    ∧ (∀ (s : Scenario1Strategy) (c : Constraint), s.constraints = [c] →
        s.relative_frequencies ≠ [] →
        s.calculate_no_attributes_target_with_statistics
          = 1 - lookupD s.relative_frequencies c.attr 0.5)
    ∧ sOneFull.calculate_no_attributes_target_with_statistics = 0
    ∧ sOneZero.calculate_no_attributes_target_with_statistics = 1 := by
  refine ⟨?_, ?_, by with_unfolding_all rfl, by with_unfolding_all rfl⟩
  · rintro ⟨it, ft, sst, cs, fr, co⟩ h2 hf
    rcases fr with _ | ⟨f0, fr⟩
    · exact absurd rfl hf
    rcases cs with _ | ⟨c1, _ | ⟨c2, rest⟩⟩
    · simp at h2
    · simp at h2
    rcases rest with _ | ⟨c3, rest⟩ <;>
      simp only [Scenario1Strategy.calculate_no_attributes_target_with_statistics,
        List.isEmpty_cons, Bool.false_or, Bool.or_self, if_neg, if_false] <;>
      exact ⟨le_max_left _ _, max_le (by norm_num) (min_le_left _ _)⟩
  · rintro ⟨it, ft, sst, cs, fr, co⟩ c hcs hf
    subst hcs
    rcases fr with _ | ⟨f0, fr⟩
    · exact absurd rfl hf
    rfl

/-- Witness for `no_attr_target_clamping` on the two-quota fixture. -/
theorem no_attr_target_clamping_witness :
    (0.05 : ℚ) ≤ s7.calculate_no_attributes_target_with_statistics
      ∧ s7.calculate_no_attributes_target_with_statistics ≤ 0.8 :=
  no_attr_target_clamping.1 s7 (by decide) (by simp [s7])

/-! ### C3: the tolerance schedule -/

/-- C3 (counterexample): with `initial_tolerance = 0.1`,
`final_tolerance = 0.5`, `strictness_start = 0.1`, the tolerance at 100
admitted (progress 0.1) is strictly below the tolerance at 550 admitted
(progress 0.55) — the schedule is not monotone non-increasing for every
configuration. -/
theorem tolerance_schedule_counterexample :
    s3.calculate_current_tolerance 100 < s3.calculate_current_tolerance 550 := by
  have h1 : s3.calculate_current_tolerance 100 = 1/10 := by with_unfolding_all rfl
  have h2 : s3.calculate_current_tolerance 550 = 3/10 := by with_unfolding_all rfl
  rw [h1, h2]
  norm_num

/-- Arithmetic helper: the clamped linear interpolation is nonnegative when
`0 ≤ F ≤ I`. -/
theorem interp_nonneg (I F x : ℚ) (hf0 : 0 ≤ F) (hfi : F ≤ I) :
    0 ≤ I - (I - F) * min 1 (max 0 x) := by
  have h0 : (0 : ℚ) ≤ min 1 (max 0 x) := le_min (by norm_num) (le_max_left 0 x)
  have h1 : min 1 (max 0 x) ≤ 1 := min_le_left 1 (max 0 x)
  nlinarith

/-- Arithmetic helper: the clamped linear interpolation never exceeds `I`
when `F ≤ I`. -/
theorem interp_le_initial (I F x : ℚ) (hfi : F ≤ I) :
    I - (I - F) * min 1 (max 0 x) ≤ I := by
  have h0 : (0 : ℚ) ≤ min 1 (max 0 x) := le_min (by norm_num) (le_max_left 0 x)
  nlinarith

/-- Arithmetic helper: the clamped linear interpolation is antitone in the
progress fraction when `F ≤ I`. -/
theorem interp_antitone (I F x y : ℚ) (hfi : F ≤ I) (hxy : x ≤ y) :
    I - (I - F) * min 1 (max 0 y) ≤ I - (I - F) * min 1 (max 0 x) := by
  have h : min 1 (max 0 x) ≤ min 1 (max 0 y) :=
    min_le_min (le_refl 1) (max_le_max (le_refl 0) hxy)
  nlinarith

/-- The monotonicity half of the amended tolerance claim. -/
theorem tolerance_monotone_aux (s : Scenario1Strategy) (a b : ℕ)
    (hf0 : 0 ≤ s.final_tolerance)
    (hfi : s.final_tolerance ≤ s.initial_tolerance) (hab : a ≤ b) :
    s.calculate_current_tolerance b ≤ s.calculate_current_tolerance a := by
  have hcast : (a : ℚ) ≤ (b : ℚ) := by exact_mod_cast hab
  have hpab : (a : ℚ) / 1000 ≤ (b : ℚ) / 1000 := by linarith
  simp only [Scenario1Strategy.calculate_current_tolerance]
  split_ifs with h1 h2 h3 h4 h5 h6 h7 h8
  · exact le_refl 0
  · linarith
  · exact interp_nonneg _ _ _ hf0 hfi
  · exact absurd (le_trans h5 hpab) h1
  · exact le_refl _
  · exact absurd (le_trans hpab h4) h6
  · exact absurd (le_trans h7 hpab) h1
  · exact interp_le_initial _ _ _ hfi
  · have hsstb : s.strictness_start < (b : ℚ) / 1000 := not_le.mp h4
    have hb95 : (b : ℚ) / 1000 < 0.95 := not_le.mp h1
    have h1sst : 0 < 1 - s.strictness_start := by linarith
    exact interp_antitone _ _ _ _ hfi
      ((div_le_div_iff_of_pos_right h1sst).mpr (by linarith))

/-- C3 (amended): the tolerance is exactly 0 at progress ≥ 0.95 for every
configuration; it is monotone non-increasing in the admitted count provided
`0 ≤ final_tolerance ≤ initial_tolerance` (for `final > initial` it
increases, see the counterexample). -/
theorem tolerance_schedule_amended :
    (∀ (s : Scenario1Strategy) (c : ℕ), (0.95 : ℚ) ≤ (c : ℚ) / 1000 →
        s.calculate_current_tolerance c = 0)
    ∧ (∀ (s : Scenario1Strategy) (a b : ℕ), 0 ≤ s.final_tolerance →
        s.final_tolerance ≤ s.initial_tolerance → a ≤ b →
        s.calculate_current_tolerance b ≤ s.calculate_current_tolerance a) := by
  constructor
  · intro s c hc
    simp only [Scenario1Strategy.calculate_current_tolerance]
    rw [if_pos hc]
  · exact tolerance_monotone_aux

/-- Witness for `tolerance_schedule_amended` on the default configuration. -/
theorem tolerance_schedule_amended_witness :
    s0.calculate_current_tolerance 960 = 0
      ∧ s0.calculate_current_tolerance 700 ≤ s0.calculate_current_tolerance 300 :=
  ⟨tolerance_schedule_amended.1 s0 960 (by norm_num),
    tolerance_schedule_amended.2 s0 300 700 (by norm_num [s0]) (by norm_num [s0])
      (by norm_num)⟩

/-! ### C4: under-representation with an absent frequency -/

/-- On the main path (capacity not reached, some true attribute, someone
already admitted, quotas known), `decide` is exactly the per-constraint
loop. -/
theorem decide_main_path (s : Scenario1Strategy) (person : Person)
    (gs : GameState) (stats : CurrentStats) (draw : ℚ)
    (hcap : gs.admitted_count < 1000)
    (hsome : person.attributes.any (fun q => q.2) = true)
    (hadm : stats.admitted_people.isEmpty = false)
    (hcs : s.constraints.isEmpty = false) :
    s.decide person gs stats draw
      = decideLoop person stats.attribute_counts s.relative_frequencies
          s.correlations stats.admitted_people.length
          (1000 - (stats.admitted_people.length : ℚ))
          (s.calculate_current_tolerance stats.admitted_people.length)
          s.constraints := by
  have hcap' : (1000 ≤ gs.admitted_count) ↔ False := iff_false_intro (by omega)
  unfold Scenario1Strategy.decide
  simp only [hcap', if_false, all_not_eq_false_of_any hsome, hadm, hcs,
    Bool.false_eq_true, if_false]

/-- The per-constraint loop on a single quota whose frequency is absent:
the decision is the fallback test `still_needed > remaining × 0.7`. -/
theorem decideLoop_single_fallback (person : Person)
    (counts : List (String × ℕ)) (freqs : List (String × ℚ))
    (corrs : List (String × List (String × ℚ))) (t : ℕ) (r tol : ℚ)
    (c : Constraint)
    (hfreq : hasKey freqs c.attr = false)
    (hhas : lookupD person.attributes c.attr false = false)
    (hpos : 0 < t)
    (hunder : ((lookupD counts c.attr 0 : ℕ) : ℚ) / (t : ℚ)
        < (c.min_count : ℚ) / 1000 - 0.08) :
    (decideLoop person counts freqs corrs t r tol [c] = false
      ↔ (c.min_count : ℚ) - ((lookupD counts c.attr 0 : ℕ) : ℚ) > r * 0.7) := by
  simp only [decideLoop, hhas, hfreq, hpos, if_true, hunder,
    Bool.false_eq_true, false_and, and_false, if_false, not_false_iff,
    true_and, if_pos]
  split_ifs with h
  · simp [h]
  · simp [h]

/-- C4 (counterexample): quota `A ≥ 500`, frequency of `A` absent, 20
admitted, candidate lacks `A`, under-representation triggered.  The claimed
rule (`0.5 × remaining < still_needed × 1.2`) demands rejection
(490 < 600), but `decide` admits: the absent-frequency path uses the
fallback `still_needed > remaining × 0.7`, not the 0.5 default. -/
theorem absent_frequency_counterexample :
    s4.decide person4 gs4 stats4 0 = true
      ∧ (0.5 : ℚ) * (1000 - (stats4.admitted_people.length : ℚ))
          < ((500 : ℚ) - 0) * 1.2 :=
  ⟨by with_unfolding_all rfl, by norm_num [stats4]⟩

/-- C4 (amended): for a single quota whose attribute frequency is absent
from the statistics, when the candidate lacks the attribute and the
under-representation condition holds, `decide` rejects iff
`still_needed > remaining_capacity × 0.7` (the original fallback); the 0.5
default of `_calculate_expected_attribute_yield` is never consulted. -/
theorem absent_frequency_uses_fallback (s : Scenario1Strategy) (c : Constraint)
    (person : Person) (gs : GameState) (stats : CurrentStats) (draw : ℚ)
    (hcap : gs.admitted_count < 1000)
    (hsome : person.attributes.any (fun q => q.2) = true)
    (hadm : stats.admitted_people.isEmpty = false)
    (hcs : s.constraints = [c])
    (hfreq : hasKey s.relative_frequencies c.attr = false)
    (hhas : lookupD person.attributes c.attr false = false)
    (hunder : ((lookupD stats.attribute_counts c.attr 0 : ℕ) : ℚ)
        / (stats.admitted_people.length : ℚ)
      < (c.min_count : ℚ) / 1000 - 0.08) :
    (s.decide person gs stats draw = false
      ↔ (c.min_count : ℚ) - ((lookupD stats.attribute_counts c.attr 0 : ℕ) : ℚ)
          > (1000 - (stats.admitted_people.length : ℚ)) * 0.7) := by
  have hpos : 0 < stats.admitted_people.length := by
    cases h : stats.admitted_people with
    | nil => rw [h] at hadm; simp at hadm
    | cons x xs => simp [h]
  rw [decide_main_path s person gs stats draw hcap hsome hadm
    (by rw [hcs]; rfl), hcs]
  exact decideLoop_single_fallback person stats.attribute_counts
    s.relative_frequencies s.correlations stats.admitted_people.length
    (1000 - (stats.admitted_people.length : ℚ))
    (s.calculate_current_tolerance stats.admitted_people.length) c hfreq hhas
    hpos hunder

/-- Witness for `absent_frequency_uses_fallback` on the concrete fixture. -/
theorem absent_frequency_uses_fallback_witness :
    (s4.decide person4 gs4 stats4 0 = false
      ↔ ((⟨"A", 500⟩ : Constraint).min_count : ℚ)
            - ((lookupD stats4.attribute_counts "A" 0 : ℕ) : ℚ)
          > (1000 - (stats4.admitted_people.length : ℚ)) * 0.7) :=
  absent_frequency_uses_fallback s4 ⟨"A", 500⟩ person4 gs4 stats4 0 (by decide)
    (by rfl) (by with_unfolding_all rfl) rfl rfl rfl
    (of_decide_eq_true (by with_unfolding_all rfl))

/-! ### C6: per-attribute counts never exceed total admitted -/

/-- The mapped increment raises the first binding of the incremented key
by at most one. -/
theorem lookupD_incr_le (counts : List (String × ℕ)) (a k : String) :
    lookupD (counts.map (fun p => if p.1 == a then (p.1, p.2 + 1) else p)) k 0
      ≤ lookupD counts k 0 + 1 := by
  induction counts with
  | nil => simp [lookupD]
  | cons p rest ih =>
    by_cases hpa : p.1 = a <;> by_cases hpk : p.1 = k <;>
      simp_all [lookupD]

/-- The mapped increment leaves every other key's first binding unchanged. -/
theorem lookupD_incr_ne (counts : List (String × ℕ)) (a k : String)
    (hk : k ≠ a) :
    lookupD (counts.map (fun p => if p.1 == a then (p.1, p.2 + 1) else p)) k 0
      = lookupD counts k 0 := by
  induction counts with
  | nil => rfl
  | cons p rest ih =>
    by_cases hpa : p.1 = a <;> by_cases hpk : p.1 = k <;>
      simp_all [lookupD]

/-- A counts increment touches only the given key, raising its first
binding by one. -/
theorem lookupD_countStep_le (counts : List (String × ℕ)) (q : String × Bool)
    (k : String) :
    lookupD (countStep counts q) k 0 ≤ lookupD counts k 0 + 1 := by
  unfold countStep
  split_ifs with h
  · exact lookupD_incr_le counts q.1 k
  · exact Nat.le_succ_of_le (le_refl _)

/-- A counts increment for a different key leaves a lookup unchanged. -/
theorem lookupD_countStep_ne (counts : List (String × ℕ)) (q : String × Bool)
    (k : String) (hk : k ≠ q.1) :
    lookupD (countStep counts q) k 0 = lookupD counts k 0 := by
  unfold countStep
  split_ifs with h
  · exact lookupD_incr_ne counts q.1 k hk
  · rfl

/-- Folding the per-attribute updates over attributes that never mention a
key leaves that key's count unchanged. -/
theorem lookupD_foldl_countStep_not_mem (l : List (String × Bool))
    (counts : List (String × ℕ)) (k : String) (h : k ∉ l.map Prod.fst) :
    lookupD (l.foldl countStep counts) k 0 = lookupD counts k 0 := by
  induction l generalizing counts with
  | nil => rfl
  | cons q rest ih =>
    simp only [List.map_cons, List.mem_cons, not_or] at h
    rw [List.foldl_cons, ih _ h.2, lookupD_countStep_ne counts q k h.1]

/-- With duplicate-free attribute keys (Python dict semantics), one
person's admission raises each count by at most one. -/
theorem lookupD_foldl_countStep_le (l : List (String × Bool))
    (counts : List (String × ℕ)) (k : String)
    (h : (l.map Prod.fst).Nodup) :
    lookupD (l.foldl countStep counts) k 0 ≤ lookupD counts k 0 + 1 := by
  induction l generalizing counts with
  | nil => simp
  | cons q rest ih =>
    simp only [List.map_cons, List.nodup_cons] at h
    obtain ⟨hq, hrest⟩ := h
    rw [List.foldl_cons]
    by_cases hk : k = q.1
    · rw [lookupD_foldl_countStep_not_mem rest _ k (by rw [hk]; exact hq)]
      exact lookupD_countStep_le counts q k
    · calc lookupD (rest.foldl countStep (countStep counts q)) k 0
          ≤ lookupD (countStep counts q) k 0 + 1 := ih _ hrest
        _ = lookupD counts k 0 + 1 := by
            rw [lookupD_countStep_ne counts q k hk]

/-- The freshly initialised counts are all zero. -/
theorem lookupD_initStats (constraints : List Constraint) (k : String) :
    lookupD (initStats constraints).attribute_counts k 0 = 0 := by
  simp only [initStats]
  induction constraints with
  | nil => rfl
  | cons c rest ih =>
    by_cases h : c.attr = k <;> simp_all [lookupD]

/-- One decision cycle preserves the tracker invariant
`count(attr) ≤ total admitted`. -/
theorem updateStats_preserves_le (stats : CurrentStats)
    (attrs : List (String × Bool)) (d : Bool)
    (hnd : (attrs.map Prod.fst).Nodup)
    (h : ∀ k, lookupD stats.attribute_counts k 0 ≤ stats.admitted_people.length)
    (k : String) :
    lookupD (updateStats stats attrs d).attribute_counts k 0
      ≤ (updateStats stats attrs d).admitted_people.length := by
  unfold updateStats
  split_ifs with hd
  · calc lookupD (attrs.foldl countStep stats.attribute_counts) k 0
        ≤ lookupD stats.attribute_counts k 0 + 1 :=
          lookupD_foldl_countStep_le attrs _ k hnd
      _ ≤ stats.admitted_people.length + 1 := Nat.add_le_add_right (h k) 1
      _ = (stats.admitted_people ++ [attrs]).length := by simp
  · exact h k

/-- The tracker invariant holds after folding any decided record list over
any starting state that satisfies it. -/
theorem foldl_updateStats_le (records : List (Person × Bool)) :
    ∀ stats : CurrentStats,
      (∀ r ∈ records, (r.1.attributes.map Prod.fst).Nodup) →
      (∀ k, lookupD stats.attribute_counts k 0 ≤ stats.admitted_people.length) →
      ∀ k,
        lookupD ((records.foldl (fun st pr => updateStats st pr.1.attributes pr.2)
            stats).attribute_counts) k 0
          ≤ (records.foldl (fun st pr => updateStats st pr.1.attributes pr.2)
              stats).admitted_people.length := by
  induction records with
  | nil => intro stats _ h k; exact h k
  | cons r rest ih =>
    intro stats hnd h k
    rw [List.foldl_cons]
    exact ih _ (fun r' hr' => hnd r' (List.mem_cons_of_mem _ hr'))
      (fun k' => updateStats_preserves_le stats r.1.attributes r.2
        (hnd r (List.mem_cons_self _ _)) h k') k

/-- C6: after every decision cycle (any prefix of recorded decisions,
candidates having duplicate-free attribute keys as Python dicts do), every
quota attribute's tracked count is at most the number of admitted
candidates. -/
theorem tracker_count_le_total_admitted (constraints : List Constraint)
    (records : List (Person × Bool))
    (hnd : ∀ r ∈ records, (r.1.attributes.map Prod.fst).Nodup) (attr : String) :
    lookupD (runStats constraints records).attribute_counts attr 0
      ≤ (runStats constraints records).admitted_people.length := by
  unfold runStats
  exact foldl_updateStats_le records (initStats constraints) hnd
    (fun k => by rw [lookupD_initStats]; exact Nat.zero_le _) attr

/-- Witness for `tracker_count_le_total_admitted` on a concrete two-cycle
session. -/
theorem tracker_count_le_total_admitted_witness :
    lookupD (runStats [⟨"A", 600⟩]
        [(personZ, true), (personEmpty, false)]).attribute_counts "A" 0
      ≤ (runStats [⟨"A", 600⟩]
          [(personZ, true), (personEmpty, false)]).admitted_people.length :=
  tracker_count_le_total_admitted [⟨"A", 600⟩]
    [(personZ, true), (personEmpty, false)] (by decide) "A"

end Berghain
